import Mathlib

/-!
Verification development for the RS Systems MCP health-monitor repository.

The definitions below are a shallow embedding of the alert-management core
(src/alerts.py) and the health-scoring part of the tool server
(src/server.py).  Modelling conventions:

* Python datetimes are modelled as exact rationals measured in minutes
  (so timedelta(minutes=m) is addition of m, and 24 hours is 1440).
  Every operation that reads the wall clock takes the current time as an
  explicit argument.
* uuid4 alert ids are modelled by a monotone counter carried in the
  manager state; the only property of uuid4 the source relies on is
  freshness of each generated id.
* Python objects live in an explicit object store (a key-value list
  indexed by alert id).  The active-alert dict and the history deque hold
  ids into that store, which models the fact that the source stores
  references to one shared Alert object, not copies.  The store itself is
  never iterated by the source, only indexed, so its entry order is
  irrelevant; new entries are consed at the front.
* Loosely typed monitor results and issue payloads are modelled by a
  JSON-like value type.
* Notification channels perform I/O; they are modelled as function
  parameters returning Except, and the events of actually handing a
  formatted message to a channel are collected in a trace list.
-/

namespace RSHealth

set_option maxRecDepth 8000

/-- JSON-like values: the shape of monitor results, issues and alert
metadata handled by the source. -/
inductive JVal where
  | null
  | bool (b : Bool)
  | num (q : Rat)
  | str (s : String)
  | arr (xs : List JVal)
  | obj (fields : List (String × JVal))

/-- Python truthiness of a JSON-like value, as used by checks such as
result.get("has_issues") appearing in a boolean position. -/
def truthy : JVal → Bool
  | .null => false
  | .bool b => b
  | .num q => q != 0
  | .str s => s != ""
  | .arr xs => !xs.isEmpty
  | .obj fs => !fs.isEmpty

mutual

/-- Python repr of a JSON-like value (str() for containers); numeric
rendering is an approximation, no proved claim depends on its text. -/
def pyRepr : JVal → String
  | .null => "None"
  | .bool b => if b then "True" else "False"
  | .num q => toString q
  | .str s => "\x27" ++ s ++ "\x27"
  | .arr xs => "[" ++ pyReprList xs ++ "]"
  | .obj fs => "\x7b" ++ pyReprFields fs ++ "\x7d"

/-- Comma-separated repr of the elements of a Python list. -/
def pyReprList : List JVal → String
  | [] => ""
  | [x] => pyRepr x
  | x :: xs => pyRepr x ++ ", " ++ pyReprList xs

/-- Comma-separated repr of the entries of a Python dict. -/
def pyReprFields : List (String × JVal) → String
  | [] => ""
  | [(k, v)] => "\x27" ++ k ++ "\x27: " ++ pyRepr v
  | (k, v) :: fs => "\x27" ++ k ++ "\x27: " ++ pyRepr v ++ ", " ++ pyReprFields fs

end

/-- Python str() of a JSON-like value: a bare string prints without
quotes, containers print as their repr. -/
def pyStr : JVal → String
  | .str s => s
  | v => pyRepr v

/-- Python dict lookup on an association list (first entry with the key;
dict keys are unique, so the first entry is the entry). -/
def alook {α β : Type} [DecidableEq α] : List (α × β) → α → Option β
  | [], _ => none
  | (k, v) :: t, key => if key = k then some v else alook t key

/-- The helper safe_get defined inside process_monitor_results: dict.get
with a default when the receiver is a dict, otherwise the default. -/
def safe_get (obj : JVal) (key : String) (default : JVal) : JVal :=
  match obj with
  | .obj fields => ((alook fields key).getD default)
  | _ => default

/-- String-valued field extraction via safe_get.  A present value that is
not a string would be handed by the source to the pydantic Alert model,
whose string fields the model renders with pyStr (no proved claim
exercises that corner). -/
def getStrD (issue : JVal) (key : String) (default : String) : String :=
  match safe_get issue key (JVal.str default) with
  | .str s => s
  | v => pyStr v

/-- Numeric field extraction via safe_get with default None, feeding the
optional float fields of Alert; a present non-numeric value is modelled
as absent. -/
def getNumD (issue : JVal) (key : String) : Option Rat :=
  match safe_get issue key .null with
  | .num q => some q
  | _ => none

/-- Subset of the settings.alerts configuration object read by
AlertManager.  Modelled from the spec: src/config.py is not part of the
sources, so the field list follows the configuration surface named in
the spec (enabled flag, cooldown minutes, webhook URL, SMTP settings). -/
structure AlertsConfig where
  enabled : Bool
  cooldown_minutes : Nat
  slack_webhook_url : Option String
  email_enabled : Bool
  email_from : String
  email_to : List String

/-- The pydantic Alert model of src/models/django_models.py, with
datetimes as rational clock readings and ids as naturals. -/
structure Alert where
  id : Nat
  severity : String
  component : String
  title : String
  message : String
  threshold_value : Option Rat
  actual_value : Option Rat
  created_at : Rat
  resolved_at : Option Rat
  is_resolved : Bool
  metadata : List (String × JVal)

/-- Mutable state of AlertManager.  heap is the Python object store
(alert id to Alert object); active_alerts and alert_history hold ids
into it, modelling that both containers alias the same objects. -/
structure AlertManagerState where
  heap : List (Nat × Alert)
  active_alerts : List Nat
  alert_history : List Nat
  cooldown_tracker : List (String × Rat)
  next_id : Nat

/-- State right after AlertManager.__init__: empty containers. -/
def initState : AlertManagerState :=
  { heap := [], active_alerts := [], alert_history := [],
    cooldown_tracker := [], next_id := 0 }

/-- Python dict assignment on the cooldown tracker: overwrite the entry
in place when the key exists, else append it. -/
def trackerSet (tr : List (String × Rat)) (key : String) (v : Rat) :
    List (String × Rat) :=
  if (alook tr key).isSome then
    tr.map (fun p => if p.1 = key then (p.1, v) else p)
  else
    tr ++ [(key, v)]

/-- AlertManager._should_alert: the cooldown gate.  Returns the decision
together with the updated tracker. -/
def should_alert (cfg : AlertsConfig) (tracker : List (String × Rat))
    (component alert_type : String) (now : Rat) :
    Bool × List (String × Rat) :=
  if !cfg.enabled then (false, tracker)
  else
    let key := component ++ ":" ++ alert_type
    match alook tracker key with
    | some last_alert =>
        let cooldown_end := last_alert + (cfg.cooldown_minutes : Rat)
        if now < cooldown_end then (false, tracker)
        else (true, trackerSet tracker key now)
    | none => (true, trackerSet tracker key now)

/-- Appending to a deque with a maximum length: the oldest entries are
dropped from the front so that at most maxlen remain. -/
def dequeAppend (maxlen : Nat) (xs : List Nat) (x : Nat) : List Nat :=
  let ys := xs ++ [x]
  ys.drop (ys.length - maxlen)

/-- Keyword arguments of AlertManager.create_alert with their source
defaults. -/
structure CreateArgs where
  severity : String
  component : String
  title : String
  message : String
  threshold_value : Option Rat := none
  actual_value : Option Rat := none
  metadata : List (String × JVal) := []

/-- The Alert object built at the top of create_alert. -/
def newAlert (s : AlertManagerState) (args : CreateArgs) (now : Rat) : Alert :=
  { id := s.next_id
    severity := args.severity
    component := args.component
    title := args.title
    message := args.message
    threshold_value := args.threshold_value
    actual_value := args.actual_value
    created_at := now
    resolved_at := none
    is_resolved := false
    metadata := args.metadata }

/-- One field of a Slack attachment payload. -/
structure SlackField where
  title : String
  value : String
  short : Bool

/-- The attachment dict built by _send_slack_notification. -/
structure SlackAttachment where
  color : String
  title : String
  text : String
  fields : List SlackField
  footer : String
  ts : Int

/-- The full webhook message (summary text plus attachments). -/
structure SlackMessage where
  text : String
  attachments : List SlackAttachment

/-- Rendering of a model clock reading where the source calls
strftime("%Y-%m-%d %H:%M:%S"); an injective textual rendering of the
abstract clock, not a calendar computation. -/
def formatTime (t : Rat) : String := toString t

/-- Python int() on the POSIX timestamp: truncation toward zero. -/
def pyInt (q : Rat) : Int :=
  if 0 ≤ q then q.floor else -((-q).floor)

/-- Slack message formatting from _send_slack_notification: severity
color map with default, component and time fields, and the actual and
threshold fields added only when both values are present. -/
def build_slack_message (alert : Alert) : SlackMessage :=
  let color :=
    if alert.severity = "critical" then "danger"
    else if alert.severity = "warning" then "warning"
    else if alert.severity = "info" then "good"
    else "default"
  let baseFields : List SlackField :=
    [{ title := "Component", value := alert.component, short := true },
     { title := "Time", value := formatTime alert.created_at, short := true }]
  let fields :=
    match alert.threshold_value, alert.actual_value with
    | some tv, some av =>
        baseFields ++
          [{ title := "Actual Value", value := toString av, short := true },
           { title := "Threshold", value := toString tv, short := true }]
    | _, _ => baseFields
  { text := "Alert: " ++ alert.title
    attachments :=
      [{ color := color
         title := alert.severity.toUpper ++ ": " ++ alert.title
         text := alert.message
         fields := fields
         footer := "RS Systems Health Monitor"
         ts := pyInt alert.created_at }] }

/-- The multipart email composed by _send_email_notification.  The HTML
markup is condensed to its data-bearing parts. -/
structure EmailMessage where
  subject : String
  from_addr : String
  to_addrs : List String
  html : String

/-- Email body from _send_email_notification.  Note the source guards the
actual and threshold lines with plain truthiness, so a value of 0.0 is
omitted (unlike the Slack payload, which tests for None). -/
def build_email_message (cfg : AlertsConfig) (alert : Alert) : EmailMessage :=
  let bannerColor :=
    if alert.severity = "critical" then "#dc3545"
    else if alert.severity = "warning" then "#ffc107"
    else "#28a745"
  let actualPart :=
    match alert.actual_value with
    | some av => if av = 0 then "" else "Actual Value: " ++ toString av ++ "; "
    | none => ""
  let thresholdPart :=
    match alert.threshold_value with
    | some tv => if tv = 0 then "" else "Threshold: " ++ toString tv ++ "; "
    | none => ""
  { subject := "[RS Systems Alert] " ++ alert.severity.toUpper ++ ": " ++ alert.title
    from_addr := cfg.email_from
    to_addrs := cfg.email_to
    html :=
      "banner-color: " ++ bannerColor ++ "; " ++
      alert.severity.toUpper ++ ": " ++ alert.title ++ "; " ++
      "Component: " ++ alert.component ++ "; " ++
      "Message: " ++ alert.message ++ "; " ++
      "Time: " ++ formatTime alert.created_at ++ "; " ++
      actualPart ++ thresholdPart ++
      "This alert was generated by RS Systems Health Monitor" }

/-- Observable notification side effects: a formatted message handed to
a channel client (the webhook send, or the SMTP transaction). -/
inductive NotifyEvent where
  | slack (msg : SlackMessage)
  | email (msg : EmailMessage)

/-- The try/except Exception wrapper around each channel body: the body
runs, any error is logged and swallowed, and the events it performed
stand. -/
def tryExceptLog {α : Type} (body : List NotifyEvent × Except String α) :
    List NotifyEvent × Except String Unit :=
  match body with
  | (evs, Except.ok _) => (evs, Except.ok ())
  | (evs, Except.error _) => (evs, Except.ok ())

/-- AlertManager._send_slack_notification.  webhookSend stands for the
AsyncWebhookClient.send call and yields the response status code or a
transport error; a non-200 status is only logged by the source. -/
def send_slack_notification (webhookSend : SlackMessage → Except String Nat)
    (alert : Alert) : List NotifyEvent × Except String Unit :=
  tryExceptLog
    (let msg := build_slack_message alert
     ([NotifyEvent.slack msg], webhookSend msg))

/-- AlertManager._send_email_notification.  smtpSend stands for the SMTP
connect/starttls/login/send_message sequence, any step of which may
fail. -/
def send_email_notification (cfg : AlertsConfig)
    (smtpSend : EmailMessage → Except String Unit) (alert : Alert) :
    List NotifyEvent × Except String Unit :=
  tryExceptLog
    (let msg := build_email_message cfg alert
     ([NotifyEvent.email msg], smtpSend msg))

/-- AlertManager._send_notifications: build one task per configured
channel (the Slack client exists when a webhook URL is configured) and
gather them with return_exceptions=True, which runs every task to
completion and collects results without re-raising. -/
def send_notifications (cfg : AlertsConfig)
    (webhookSend : SlackMessage → Except String Nat)
    (smtpSend : EmailMessage → Except String Unit) (alert : Alert) :
    List NotifyEvent × Except String Unit :=
  let tasks : List (List NotifyEvent × Except String Unit) :=
    (if cfg.slack_webhook_url.isSome then
       [send_slack_notification webhookSend alert] else []) ++
    (if cfg.email_enabled then
       [send_email_notification cfg smtpSend alert] else [])
  if tasks.isEmpty then ([], Except.ok ())
  else (tasks.flatMap Prod.fst, Except.ok ())

/-- Result of create_alert: the new alert, the successor state, whether
_send_notifications was invoked, and the channel events it performed. -/
structure CreateResult where
  alert : Alert
  state : AlertManagerState
  dispatched : Bool
  events : List NotifyEvent

/-- AlertManager.create_alert: build the Alert, insert it into the
active dict and append it to the bounded history unconditionally, then
consult the cooldown gate and notify only when it allows. -/
def create_alert (cfg : AlertsConfig)
    (webhookSend : SlackMessage → Except String Nat)
    (smtpSend : EmailMessage → Except String Unit)
    (s : AlertManagerState) (args : CreateArgs) (now : Rat) : CreateResult :=
  let alert := newAlert s args now
  let s1 : AlertManagerState :=
    { s with heap := (alert.id, alert) :: s.heap
             active_alerts := s.active_alerts ++ [alert.id]
             alert_history := dequeAppend 1000 s.alert_history alert.id
             next_id := s.next_id + 1 }
  let gate := should_alert cfg s1.cooldown_tracker args.component args.title now
  let s2 := { s1 with cooldown_tracker := gate.2 }
  { alert := alert
    state := s2
    dispatched := gate.1
    events := if gate.1 then (send_notifications cfg webhookSend smtpSend alert).1 else [] }

/-- Pointwise update of the object store at one id, modelling mutation
of the shared Alert object. -/
def heapUpdate (h : List (Nat × Alert)) (k : Nat) (f : Alert → Alert) :
    List (Nat × Alert) :=
  h.map (fun p => if p.1 = k then (p.1, f p.2) else p)

/-- AlertManager.resolve_alert: when the id is active, mark the shared
object resolved, stamp the resolution time and delete the id from the
active dict; otherwise do nothing. -/
def resolve_alert (s : AlertManagerState) (alert_id : Nat) (now : Rat) :
    AlertManagerState :=
  if alert_id ∈ s.active_alerts then
    { s with heap := heapUpdate s.heap alert_id
               (fun a => { a with is_resolved := true, resolved_at := some now })
             active_alerts := s.active_alerts.erase alert_id }
  else s

/-- AlertManager.get_active_alerts: the active dict values in insertion
order. -/
def get_active_alerts (s : AlertManagerState) : List Alert :=
  s.active_alerts.filterMap (fun i => alook s.heap i)

/-- The history deque read through the object store, oldest first. -/
def historyAlerts (s : AlertManagerState) : List Alert :=
  s.alert_history.filterMap (fun i => alook s.heap i)

/-- AlertManager.get_alert_history: reverse the deque (most recent
first) and truncate to the limit (source default 100). -/
def get_alert_history (s : AlertManagerState) (limit : Nat) : List Alert :=
  ((historyAlerts s).reverse).take limit

/-- Arguments of the create_alert call in the database branch of
process_monitor_results: fixed severity/component/title, a plain-string
issue used directly as the message (otherwise its message field with
str(issue) as fallback), and metadata naming the monitor and carrying
the raw issue. -/
def db_issue_args (issue : JVal) : CreateArgs :=
  { severity := "warning"
    component := "database"
    title := "Database Performance Issue"
    message :=
      match issue with
      | .str t => t
      | _ => getStrD issue "message" (pyStr issue)
    metadata := [("monitor", .str "database"), ("issue", issue)] }

/-- Arguments of the create_alert call in the api branch: every field
extracted via safe_get with the api defaults; metadata is the issue dict
itself when the issue is structured, else a dict wrapping it. -/
def api_issue_args (issue : JVal) : CreateArgs :=
  { severity := getStrD issue "severity" "warning"
    component := "api"
    title := getStrD issue "type" "API Issue"
    message := getStrD issue "message" "API performance issue detected"
    threshold_value := getNumD issue "threshold"
    actual_value := getNumD issue "value"
    metadata :=
      match issue with
      | .obj fs => fs
      | _ => [("issue", issue)] }

/-- Arguments of the create_alert call in the queue branch. -/
def queue_issue_args (issue : JVal) : CreateArgs :=
  { severity := getStrD issue "severity" "warning"
    component := "queue"
    title := getStrD issue "type" "Queue Issue"
    message := getStrD issue "message" "Queue processing issue detected"
    threshold_value := getNumD issue "threshold"
    actual_value := getNumD issue "value"
    metadata :=
      match issue with
      | .obj fs => fs
      | _ => [("issue", issue)] }

/-- Arguments of the create_alert call in the storage branch. -/
def storage_issue_args (issue : JVal) : CreateArgs :=
  { severity := getStrD issue "severity" "warning"
    component := "storage"
    title := getStrD issue "type" "Storage Issue"
    message := getStrD issue "message" "Storage issue detected"
    threshold_value := getNumD issue "threshold"
    actual_value := getNumD issue "value"
    metadata :=
      match issue with
      | .obj fs => fs
      | _ => [("issue", issue)] }

/-- Arguments of the create_alert call in the activity branch (default
severity info). -/
def activity_issue_args (issue : JVal) : CreateArgs :=
  { severity := getStrD issue "severity" "info"
    component := "activity"
    title := getStrD issue "type" "Activity Issue"
    message := getStrD issue "message" "Activity pattern issue detected"
    metadata :=
      match issue with
      | .obj fs => fs
      | _ => [("issue", issue)] }

/-- Accumulator threaded through process_monitor_results: the manager
state, the alerts_created list, and the notification events performed. -/
structure ProcessAcc where
  state : AlertManagerState
  alerts : List Alert
  events : List NotifyEvent

/-- One loop iteration of a branch of process_monitor_results: await
create_alert and append the alert to alerts_created. -/
def processStep (cfg : AlertsConfig)
    (webhookSend : SlackMessage → Except String Nat)
    (smtpSend : EmailMessage → Except String Unit) (now : Rat)
    (acc : ProcessAcc) (args : CreateArgs) : ProcessAcc :=
  let r := create_alert cfg webhookSend smtpSend acc.state args now
  { state := r.state, alerts := acc.alerts ++ [r.alert],
    events := acc.events ++ r.events }

/-- The issues list iterated by a branch: the value of the issues key
when it is a list, else nothing (the source default is the empty list;
a non-list issues value, which Python would iterate as an arbitrary
iterable, is outside the modelled inputs). -/
def issuesOf (r : JVal) : List JVal :=
  match r with
  | .obj fs =>
      match alook fs "issues" with
      | some (.arr xs) => xs
      | _ => []
  | _ => []

/-- Guard of each branch of process_monitor_results: the component key
is present, its value is a dict and its has_issues entry is truthy. -/
def branchActive (results : List (String × JVal)) (name : String) : Bool :=
  match alook results name with
  | some (.obj fs) => truthy ((alook fs "has_issues").getD .null)
  | _ => false

/-- The issues iterated by the branch for one component of the results
mapping. -/
def branchIssues (results : List (String × JVal)) (name : String) : List JVal :=
  match alook results name with
  | some r => issuesOf r
  | none => []

/-- One component branch of process_monitor_results: when the guard
holds, loop over the issues creating one alert each. -/
def processBranch (cfg : AlertsConfig)
    (webhookSend : SlackMessage → Except String Nat)
    (smtpSend : EmailMessage → Except String Unit) (now : Rat)
    (results : List (String × JVal)) (name : String)
    (mkArgs : JVal → CreateArgs) (acc : ProcessAcc) : ProcessAcc :=
  if branchActive results name then
    (branchIssues results name).foldl
      (fun a issue => processStep cfg webhookSend smtpSend now a (mkArgs issue)) acc
  else acc

/-- AlertManager.process_monitor_results: the five component branches in
source order (database, api, queue, storage, activity). -/
def process_monitor_results (cfg : AlertsConfig)
    (webhookSend : SlackMessage → Except String Nat)
    (smtpSend : EmailMessage → Except String Unit)
    (s : AlertManagerState) (results : List (String × JVal)) (now : Rat) :
    ProcessAcc :=
  let acc0 : ProcessAcc := { state := s, alerts := [], events := [] }
  let acc1 := processBranch cfg webhookSend smtpSend now results "database" db_issue_args acc0
  let acc2 := processBranch cfg webhookSend smtpSend now results "api" api_issue_args acc1
  let acc3 := processBranch cfg webhookSend smtpSend now results "queue" queue_issue_args acc2
  let acc4 := processBranch cfg webhookSend smtpSend now results "storage" storage_issue_args acc3
  processBranch cfg webhookSend smtpSend now results "activity" activity_issue_args acc4

/-- Python dict counter update: increment the entry in place when the
key exists, else append it with count 1. -/
def assocBump : List (String × Nat) → String → List (String × Nat)
  | [], k => [(k, 1)]
  | (k', v) :: rest, k =>
      if k' = k then (k', v + 1) :: rest else (k', v) :: assocBump rest k

/-- The dict returned by AlertManager.get_alert_summary. -/
structure AlertSummary where
  active_alerts_count : Nat
  severity_breakdown : List (String × Nat)
  component_breakdown : List (String × Nat)
  alerts_last_24h : Nat
  most_recent_alert : Option Alert
  timestamp : Rat

/-- AlertManager.get_alert_summary: severity and component counts over
the active list, the history entries of the last 24 hours, and the
first element of the active list under the most_recent_alert key. -/
def get_alert_summary (s : AlertManagerState) (now : Rat) : AlertSummary :=
  let active := get_active_alerts s
  let history := historyAlerts s
  let severity_counts :=
    active.foldl (fun m a => assocBump m a.severity)
      [("critical", 0), ("warning", 0), ("info", 0)]
  let component_counts :=
    active.foldl (fun m a => assocBump m a.component) []
  let cutoff := now - (1440 : Rat)
  let recent_alerts := history.filter (fun a => cutoff < a.created_at)
  { active_alerts_count := active.length
    severity_breakdown := severity_counts
    component_breakdown := component_counts
    alerts_last_24h := recent_alerts.length
    most_recent_alert := active.head?
    timestamp := now }

/-- RSHealthMonitorServer._get_health_score: 50 for a malformed result
or one whose error entry is truthy, 75 when has_issues is truthy, else
100. -/
def get_health_score (result : JVal) : Nat :=
  match result with
  | .obj fs =>
      if truthy ((alook fs "error").getD .null) then 50
      else if truthy ((alook fs "has_issues").getD .null) then 75
      else 100
  | _ => 50

/-- Availability of the five monitors: a field is some r when the
monitor object exists, its feature flag is enabled and running it
returns r; none when the monitor is absent or disabled.  The probes are
external collaborators, so their results are inputs of the model. -/
structure MonitorSetup where
  database : Option JVal
  api : Option JVal
  queue : Option JVal
  storage : Option JVal
  activity : Option JVal

/-- The monitor result available for a component name, none for every
unknown name. -/
def monitorOf (setup : MonitorSetup) (name : String) : Option JVal :=
  if name = "database" then setup.database
  else if name = "api" then setup.api
  else if name = "queue" then setup.queue
  else if name = "storage" then setup.storage
  else if name = "activity" then setup.activity
  else none

/-- The results mapping accumulated by _system_health_summary: one entry
per component that was requested and whose monitor ran, in source
order. -/
def checkedComponents (setup : MonitorSetup) (components : List String) :
    List (String × JVal) :=
  (["database", "api", "queue", "storage", "activity"]).filterMap
    (fun name =>
      if name ∈ components then (monitorOf setup name).map (fun r => (name, r))
      else none)

/-- The overall health score of _system_health_summary: the mean of the
per-component scores, or 100 when no component was checked. -/
def overall_score (setup : MonitorSetup) (components : List String) : Rat :=
  let health_scores := (checkedComponents setup components).map
    (fun p => (p.1, get_health_score p.2))
  if health_scores.isEmpty then 100
  else ((health_scores.map (fun p => (p.2 : Rat))).sum) / (health_scores.length : Rat)

/-- The status band computed by _system_health_summary from the overall
score. -/
def statusOf (score : Rat) : String :=
  if score ≥ 90 then "healthy"
  else if score ≥ 70 then "degraded"
  else "unhealthy"

/-- Python round() at one decimal on an exact rational: round half to
even. -/
def pyRound1 (q : Rat) : Rat :=
  let x := q * 10
  let f : Int := x.floor
  let frac := x - (f : Rat)
  let r : Int :=
    if frac < (1 : Rat) / 2 then f
    else if (1 : Rat) / 2 < frac then f + 1
    else if f % 2 = 0 then f else f + 1
  (r : Rat) / 10

/-- The summary dict assembled by _system_health_summary (the fields
the claims are about). -/
structure HealthSummary where
  overall_health_score : Rat
  status : String
  active_alerts_count : Nat
  components_checked : List String
  timestamp : Rat

/-- RSHealthMonitorServer._system_health_summary: run the requested and
enabled monitors, score each, average the scores (100 when none ran),
read the active alerts, feed the results to process_monitor_results and
assemble the summary.  Returns the summary together with the manager
state after alert generation. -/
def system_health_summary (cfg : AlertsConfig)
    (webhookSend : SlackMessage → Except String Nat)
    (smtpSend : EmailMessage → Except String Unit)
    (s : AlertManagerState) (setup : MonitorSetup)
    (components : List String) (now : Rat) :
    HealthSummary × AlertManagerState :=
  let results := checkedComponents setup components
  let score := overall_score setup components
  let alerts := get_active_alerts s
  let acc := process_monitor_results cfg webhookSend smtpSend s results now
  ({ overall_health_score := pyRound1 score
     status := statusOf score
     active_alerts_count := alerts.length
     components_checked := results.map Prod.fst
     timestamp := now }, acc.state)

/-- Well-formedness of a manager state: every active or historical id
resolves in the object store, stored objects carry their own key as id,
ids are below the freshness counter (uuid4 freshness), and the active
dict and the store have no duplicate keys. -/
def WFState (s : AlertManagerState) : Prop :=
  (∀ i ∈ s.active_alerts, (alook s.heap i).isSome = true)
  ∧ (∀ i ∈ s.alert_history, (alook s.heap i).isSome = true)
  ∧ (∀ p ∈ s.heap, p.2.id = p.1 ∧ p.1 < s.next_id)
  ∧ s.active_alerts.Nodup
  ∧ (s.heap.map Prod.fst).Nodup

theorem alook_mem {α β : Type} [DecidableEq α] {l : List (α × β)} {k : α} {v : β}
    (h : alook l k = some v) : (k, v) ∈ l := by
  induction l with
  | nil => simp [alook] at h
  | cons p t ih =>
      obtain ⟨k', v'⟩ := p
      by_cases hk : k = k'
      · subst hk
        have hv : v' = v := by simpa [alook] using h
        subst hv
        exact List.mem_cons_self _ _
      · have h' : alook t k = some v := by simpa [alook, hk] using h
        exact List.mem_cons_of_mem _ (ih h')

theorem alook_heapUpdate (l : List (Nat × Alert)) (k j : Nat)
    (f : Alert → Alert) :
    alook (heapUpdate l k f) j =
      if j = k then (alook l k).map f else alook l j := by
  have ha : ∀ (key a : Nat) (b : Alert) (t' : List (Nat × Alert)),
      alook ((a, b) :: t') key = if key = a then some b else alook t' key :=
    fun _ _ _ _ => rfl
  induction l with
  | nil => by_cases h : j = k <;> simp [heapUpdate, alook, h]
  | cons p t ih =>
      obtain ⟨k', v'⟩ := p
      have hcons : heapUpdate ((k', v') :: t) k f
          = (if k' = k then (k', f v') else (k', v')) :: heapUpdate t k f := rfl
      rw [hcons]
      by_cases hk : k' = k
      · rw [if_pos hk]
        by_cases hj : j = k'
        · have hjk : j = k := hj.trans hk
          rw [ha j k' (f v') (heapUpdate t k f), if_pos hj, if_pos hjk,
            ha k k' v' t, if_pos hk.symm]
          rfl
        · have hjk : ¬ j = k := fun h => hj (h.trans hk.symm)
          rw [ha j k' (f v') (heapUpdate t k f), if_neg hj, ih, if_neg hjk,
            if_neg hjk, ha j k' v' t, if_neg hj]
      · rw [if_neg hk]
        by_cases hj : j = k'
        · have hjk : ¬ j = k := fun h => hk (hj.symm.trans h)
          rw [ha j k' v' (heapUpdate t k f), if_pos hj, if_neg hjk,
            ha j k' v' t, if_pos hj]
        · rw [ha j k' v' (heapUpdate t k f), if_neg hj, ih, ha j k' v' t,
            if_neg hj]
          by_cases hjk : j = k
          · rw [if_pos hjk, if_pos hjk, ha k k' v' t,
              if_neg (fun h => hk h.symm)]
          · rw [if_neg hjk, if_neg hjk]

theorem dequeAppend_length_le (xs : List Nat) (x : Nat) :
    (dequeAppend 1000 xs x).length ≤ 1000 := by
  simp only [dequeAppend, List.length_drop, List.length_append, List.length_cons]
  omega

theorem dequeAppend_full (xs : List Nat) (x : Nat) (h : xs.length = 1000) :
    dequeAppend 1000 xs x = xs.tail ++ [x] := by
  simp only [dequeAppend, List.length_append, List.length_cons, h]
  have : (1000 + 1 - 1000) = 1 := by omega
  norm_num
  rw [← List.drop_one, List.drop_append_of_le_length (by omega), List.drop_one]

theorem create_alert_alert (cfg : AlertsConfig)
    (wb : SlackMessage → Except String Nat) (sb : EmailMessage → Except String Unit)
    (s : AlertManagerState) (args : CreateArgs) (now : Rat) :
    (create_alert cfg wb sb s args now).alert = newAlert s args now := rfl

theorem foldl_processStep_map {γ : Type} (cfg : AlertsConfig)
    (wb : SlackMessage → Except String Nat) (sb : EmailMessage → Except String Unit)
    (now : Rat) (mk : JVal → CreateArgs) (g : Alert → γ) (f : CreateArgs → γ)
    (hg : ∀ s args, g (newAlert s args now) = f args) :
    ∀ (xs : List JVal) (acc : ProcessAcc),
      ((xs.foldl (fun a issue => processStep cfg wb sb now a (mk issue)) acc).alerts).map g
        = acc.alerts.map g ++ xs.map (fun issue => f (mk issue)) := by
  intro xs
  induction xs with
  | nil => intro acc; simp
  | cons x t ih =>
      intro acc
      rw [List.foldl_cons, ih]
      simp [processStep, create_alert_alert, hg]

/-- A well-formed monitor result with has_issues set and the given
issues list, the shape used to exercise one branch of
process_monitor_results. -/
def mkIssuesResult (xs : List JVal) : JVal :=
  .obj [("has_issues", .bool true), ("issues", .arr xs)]

theorem process_single_database (cfg : AlertsConfig)
    (wb : SlackMessage → Except String Nat) (sb : EmailMessage → Except String Unit)
    (s : AlertManagerState) (xs : List JVal) (now : Rat) :
    process_monitor_results cfg wb sb s [("database", mkIssuesResult xs)] now
      = xs.foldl (fun a issue => processStep cfg wb sb now a (db_issue_args issue))
          { state := s, alerts := [], events := [] } := rfl

theorem process_single_api (cfg : AlertsConfig)
    (wb : SlackMessage → Except String Nat) (sb : EmailMessage → Except String Unit)
    (s : AlertManagerState) (xs : List JVal) (now : Rat) :
    process_monitor_results cfg wb sb s [("api", mkIssuesResult xs)] now
      = xs.foldl (fun a issue => processStep cfg wb sb now a (api_issue_args issue))
          { state := s, alerts := [], events := [] } := rfl

theorem process_single_queue (cfg : AlertsConfig)
    (wb : SlackMessage → Except String Nat) (sb : EmailMessage → Except String Unit)
    (s : AlertManagerState) (xs : List JVal) (now : Rat) :
    process_monitor_results cfg wb sb s [("queue", mkIssuesResult xs)] now
      = xs.foldl (fun a issue => processStep cfg wb sb now a (queue_issue_args issue))
          { state := s, alerts := [], events := [] } := rfl

theorem process_single_storage (cfg : AlertsConfig)
    (wb : SlackMessage → Except String Nat) (sb : EmailMessage → Except String Unit)
    (s : AlertManagerState) (xs : List JVal) (now : Rat) :
    process_monitor_results cfg wb sb s [("storage", mkIssuesResult xs)] now
      = xs.foldl (fun a issue => processStep cfg wb sb now a (storage_issue_args issue))
          { state := s, alerts := [], events := [] } := rfl

theorem process_single_activity (cfg : AlertsConfig)
    (wb : SlackMessage → Except String Nat) (sb : EmailMessage → Except String Unit)
    (s : AlertManagerState) (xs : List JVal) (now : Rat) :
    process_monitor_results cfg wb sb s [("activity", mkIssuesResult xs)] now
      = xs.foldl (fun a issue => processStep cfg wb sb now a (activity_issue_args issue))
          { state := s, alerts := [], events := [] } := rfl

/-- Restatement of the CooldownGate contract in the words of the spec,
to be compared with should_alert as translated from the source: false
whenever notifications are globally disabled; otherwise, with no stored
timestamp, or once the stored timestamp plus the cooldown duration has
elapsed, record now and return true; in every other case return false
with the stored timestamps unchanged. -/
def cooldownSpec (cfg : AlertsConfig) (tracker : List (String × Rat))
    (component alertKind : String) (now : Rat) :
    Bool × List (String × Rat) :=
  if cfg.enabled = false then (false, tracker)
  else
    let key := component ++ ":" ++ alertKind
    match alook tracker key with
    | none => (true, trackerSet tracker key now)
    | some stored =>
        if stored + (cfg.cooldown_minutes : Rat) ≤ now then
          (true, trackerSet tracker key now)
        else (false, tracker)

/-- C2.  CooldownGate contract: the gate of the source agrees with the
spec on every configuration, tracker state, key and clock reading —
false when disabled; true with the time recorded when the key is unseen
or its cooldown has elapsed; false with the tracker untouched otherwise,
anchoring the window to the last allowed fire. -/
theorem c2_cooldown_gate_contract (cfg : AlertsConfig)
    (tracker : List (String × Rat)) (component alertKind : String) (now : Rat) :
    should_alert cfg tracker component alertKind now
      = cooldownSpec cfg tracker component alertKind now := by
  unfold should_alert cooldownSpec
  cases hE : cfg.enabled with
  | false => simp
  | true =>
      simp only [Bool.not_true, Bool.true_eq_false, Bool.false_eq_true, if_false]
      cases alook tracker (component ++ ":" ++ alertKind) with
      | none => rfl
      | some stored =>
          by_cases h : now < stored + (cfg.cooldown_minutes : Rat)
          · simp [h, not_le.mpr h]
          · simp [h, not_lt.mp h]

/-- C1.  Create-always, notify-conditionally: when the (component, title)
key is still inside the cooldown window after a previously allowed fire,
create_alert still inserts the alert into the active dict (a fresh key,
so the registry grows) and appends it to the history deque, but it does
not invoke the notification dispatch and no channel event occurs. -/
theorem c1_create_always_notify_conditionally (cfg : AlertsConfig)
    (wb : SlackMessage → Except String Nat) (sb : EmailMessage → Except String Unit)
    (s : AlertManagerState) (args : CreateArgs) (now last : Rat)
    (hwf : WFState s) (hE : cfg.enabled = true)
    (hkey : alook s.cooldown_tracker (args.component ++ ":" ++ args.title) = some last)
    (hcool : now < last + (cfg.cooldown_minutes : Rat)) :
    (create_alert cfg wb sb s args now).alert.id
        ∈ (create_alert cfg wb sb s args now).state.active_alerts
      ∧ (create_alert cfg wb sb s args now).state.active_alerts.length
          = s.active_alerts.length + 1
      ∧ (create_alert cfg wb sb s args now).state.active_alerts.Nodup
      ∧ alook (create_alert cfg wb sb s args now).state.heap
            (create_alert cfg wb sb s args now).alert.id
          = some (create_alert cfg wb sb s args now).alert
      ∧ (create_alert cfg wb sb s args now).state.alert_history.getLast?
          = some (create_alert cfg wb sb s args now).alert.id
      ∧ (create_alert cfg wb sb s args now).dispatched = false
      ∧ (create_alert cfg wb sb s args now).events = [] := by
  obtain ⟨hact, hhistwf, hkeys, hnodupA, hnodupK⟩ := hwf
  have hgate : should_alert cfg s.cooldown_tracker args.component args.title now
      = (false, s.cooldown_tracker) := by
    unfold should_alert
    rw [hE]
    simp only [Bool.not_true, Bool.false_eq_true, if_false]
    rw [hkey]
    simp [hcool]
  have hfresh : s.next_id ∉ s.active_alerts := by
    intro hmem
    obtain ⟨v, hv⟩ := Option.isSome_iff_exists.mp (hact _ hmem)
    exact absurd ((hkeys _ (alook_mem hv)).2) (lt_irrefl _)
  have hid : (create_alert cfg wb sb s args now).alert = newAlert s args now := rfl
  have halerts : (create_alert cfg wb sb s args now).state.active_alerts
      = s.active_alerts ++ [s.next_id] := rfl
  have hheap : (create_alert cfg wb sb s args now).state.heap
      = (s.next_id, newAlert s args now) :: s.heap := rfl
  have hhist : (create_alert cfg wb sb s args now).state.alert_history
      = dequeAppend 1000 s.alert_history s.next_id := rfl
  have hdisp : (create_alert cfg wb sb s args now).dispatched
      = (should_alert cfg s.cooldown_tracker args.component args.title now).1 := rfl
  have hev : (create_alert cfg wb sb s args now).events
      = (if (should_alert cfg s.cooldown_tracker args.component args.title now).1
         then (send_notifications cfg wb sb (newAlert s args now)).1 else []) := rfl
  refine ⟨?_, ?_, ?_, ?_, ?_, ?_, ?_⟩
  · rw [hid, halerts]
    exact List.mem_append_right _ (List.mem_singleton_self _)
  · rw [halerts]
    simp
  · rw [halerts, List.nodup_append]
    exact ⟨hnodupA, List.nodup_singleton _,
      fun a ha hb => hfresh (by rwa [List.mem_singleton.mp hb] at ha)⟩
  · rw [hid, hheap]
    simp [alook, newAlert]
  · rw [hid, hhist]
    show ((s.alert_history ++ [s.next_id]).drop
        ((s.alert_history ++ [s.next_id]).length - 1000)).getLast?
      = some (newAlert s args now).id
    rw [List.drop_append_of_le_length (by simp), List.getLast?_concat]
    rfl
  · rw [hdisp, hgate]
  · rw [hev, hgate]
    simp

/-- Test configuration with notifications enabled, a five-minute
cooldown and both channels configured. -/
def cfgOn : AlertsConfig :=
  { enabled := true, cooldown_minutes := 5,
    slack_webhook_url := some "http://hook", email_enabled := true,
    email_from := "monitor@rs", email_to := ["ops@rs"] }

/-- Test configuration with notifications globally disabled and no
channels. -/
def cfgOff : AlertsConfig :=
  { enabled := false, cooldown_minutes := 5, slack_webhook_url := none,
    email_enabled := false, email_from := "", email_to := [] }

/-- Webhook behavior that always succeeds with status 200. -/
def wbOk : SlackMessage → Except String Nat := fun _ => Except.ok 200

/-- SMTP behavior that always succeeds. -/
def sbOk : EmailMessage → Except String Unit := fun _ => Except.ok ()

/-- SMTP behavior that always fails. -/
def sbFail : EmailMessage → Except String Unit := fun _ => Except.error "smtp down"

/-- Sample create_alert arguments for a database alert. -/
def argsDB : CreateArgs :=
  { severity := "warning", component := "database", title := "DB slow",
    message := "query latency above threshold" }

/-- Manager state whose cooldown tracker already records an allowed fire
for the database key at time 0. -/
def c1State : AlertManagerState :=
  { heap := [], active_alerts := [], alert_history := [],
    cooldown_tracker := [("database:DB slow", 0)], next_id := 0 }

/-- Witness for C1: at time 1, one minute into the five-minute window
recorded at time 0, the hypotheses hold and creation still grows the
registry while dispatch stays silent. -/
theorem c1_create_always_notify_conditionally_witness :
    WFState c1State
      ∧ cfgOn.enabled = true
      ∧ alook c1State.cooldown_tracker (argsDB.component ++ ":" ++ argsDB.title)
          = some 0
      ∧ (1 : Rat) < 0 + (cfgOn.cooldown_minutes : Rat)
      ∧ (create_alert cfgOn wbOk sbOk c1State argsDB 1).dispatched = false
      ∧ (create_alert cfgOn wbOk sbOk c1State argsDB 1).state.active_alerts.length
          = c1State.active_alerts.length + 1 := by
  have hcool : (1 : Rat) < 0 + (cfgOn.cooldown_minutes : Rat) := by
    show (1 : Rat) < 0 + ((5 : Nat) : Rat)
    norm_num
  have hwf : WFState c1State := by
    refine ⟨?_, ?_, ?_, ?_, ?_⟩ <;> simp [c1State]
  have h := c1_create_always_notify_conditionally cfgOn wbOk sbOk c1State argsDB 1 0
    hwf rfl rfl hcool
  exact ⟨hwf, rfl, rfl, hcool, h.2.2.2.2.2.1, h.2.1⟩

theorem send_slack_notification_events
    (wb : SlackMessage → Except String Nat) (alert : Alert) :
    (send_slack_notification wb alert).1
      = [NotifyEvent.slack (build_slack_message alert)] := by
  unfold send_slack_notification tryExceptLog
  cases h : wb (build_slack_message alert) <;> simp [h]

theorem send_slack_notification_ok
    (wb : SlackMessage → Except String Nat) (alert : Alert) :
    (send_slack_notification wb alert).2 = Except.ok () := by
  unfold send_slack_notification tryExceptLog
  cases h : wb (build_slack_message alert) <;> simp [h]

theorem send_email_notification_events (cfg : AlertsConfig)
    (sb : EmailMessage → Except String Unit) (alert : Alert) :
    (send_email_notification cfg sb alert).1
      = [NotifyEvent.email (build_email_message cfg alert)] := by
  unfold send_email_notification tryExceptLog
  cases h : sb (build_email_message cfg alert) <;> simp [h]

theorem send_email_notification_ok (cfg : AlertsConfig)
    (sb : EmailMessage → Except String Unit) (alert : Alert) :
    (send_email_notification cfg sb alert).2 = Except.ok () := by
  unfold send_email_notification tryExceptLog
  cases h : sb (build_email_message cfg alert) <;> simp [h]

/-- C7.  Dispatch failure isolation: for every alert, every channel
configuration and arbitrary channel behaviors — including ones that
fail — dispatch returns without an error to its caller, and each
enabled channel is handed its formatted message regardless of what the
other channel does. -/
theorem c7_dispatch_failure_isolation (cfg : AlertsConfig)
    (wb : SlackMessage → Except String Nat) (sb : EmailMessage → Except String Unit)
    (alert : Alert) :
    (send_notifications cfg wb sb alert).2 = Except.ok ()
      ∧ (cfg.slack_webhook_url.isSome = true →
          NotifyEvent.slack (build_slack_message alert)
            ∈ (send_notifications cfg wb sb alert).1)
      ∧ (cfg.email_enabled = true →
          NotifyEvent.email (build_email_message cfg alert)
            ∈ (send_notifications cfg wb sb alert).1) := by
  unfold send_notifications
  by_cases hA : cfg.slack_webhook_url.isSome <;> by_cases hB : cfg.email_enabled <;>
    simp [hA, hB, send_slack_notification_events, send_email_notification_events]

/-- Witness for C7: with both channels enabled, a succeeding webhook and
a failing SMTP behavior, dispatch still reports success and the webhook
channel still receives the alert. -/
theorem c7_dispatch_failure_isolation_witness :
    (send_notifications cfgOn wbOk sbFail (newAlert initState argsDB 0)).2
        = Except.ok ()
      ∧ NotifyEvent.slack (build_slack_message (newAlert initState argsDB 0))
          ∈ (send_notifications cfgOn wbOk sbFail (newAlert initState argsDB 0)).1 := by
  have h := c7_dispatch_failure_isolation cfgOn wbOk sbFail (newAlert initState argsDB 0)
  exact ⟨h.1, h.2.1 rfl⟩

/-- Dict check used by the spec-side scoring rule. -/
def isDict : JVal → Bool
  | .obj _ => true
  | _ => false

/-- Restatement of the per-component scoring rule in the words of the
claim, to be compared with get_health_score as translated from the
source: a malformed result or one carrying an explicit error scores 50,
a well-formed result with has_issues true scores 75, otherwise 100. -/
def scoreSpec (r : JVal) : Nat :=
  if !isDict r then 50
  else if truthy (safe_get r "error" .null) then 50
  else if truthy (safe_get r "has_issues" .null) then 75
  else 100

/-- Restatement of the overall score in the words of the claim: the
unweighted mean of the included component scores, or 100 when no
components were checked. -/
def overallSpec (setup : MonitorSetup) (components : List String) : Rat :=
  if (checkedComponents setup components).isEmpty then 100
  else
    let scores := (checkedComponents setup components).map (fun p => scoreSpec p.2)
    ((scores.map (fun n : Nat => (n : Rat))).sum) / (scores.length : Rat)

/-- Restatement of the status bands in the words of the claim. -/
def statusSpec (score : Rat) : String :=
  if 90 ≤ score then "healthy"
  else if 70 ≤ score then "degraded"
  else "unhealthy"

/-- C4.  Health scoring: the per-component score, the overall mean with
its empty-case default, and the status bands of the source agree with
the claim, and every component included in the checked set was requested
and had a monitor result (so a component with no result is excluded). -/
theorem c4_health_scoring :
    (∀ r : JVal, get_health_score r = scoreSpec r)
      ∧ (∀ (setup : MonitorSetup) (comps : List String),
          overall_score setup comps = overallSpec setup comps)
      ∧ (∀ q : Rat, statusOf q = statusSpec q)
      ∧ (∀ (setup : MonitorSetup) (comps : List String) (p : String × JVal),
          p ∈ checkedComponents setup comps →
            monitorOf setup p.1 = some p.2 ∧ p.1 ∈ comps)
      ∧ (∀ cfg wb sb s (setup : MonitorSetup) (comps : List String) (now : Rat),
          (system_health_summary cfg wb sb s setup comps now).1.status
            = statusSpec (overallSpec setup comps)) := by
  have hscore : ∀ r : JVal, get_health_score r = scoreSpec r := by
    intro r
    cases r <;> simp [get_health_score, scoreSpec, isDict, safe_get]
  have hnum : ∀ l : List (String × JVal),
      ((l.map (fun p => (p.1, get_health_score p.2))).map
          (fun p => ((p.2 : Nat) : Rat))).sum
        = ((l.map (fun p => scoreSpec p.2)).map (fun n => ((n : Nat) : Rat))).sum := by
    intro l
    induction l with
    | nil => rfl
    | cons hd tl ih =>
        rw [List.map_cons, List.map_cons, List.sum_cons, ih, List.map_cons,
          List.map_cons, List.sum_cons, hscore]
  have hlen : ∀ l : List (String × JVal),
      (l.map (fun p => (p.1, get_health_score p.2))).length
        = (l.map (fun p => scoreSpec p.2)).length := by
    intro l
    simp
  have hemp : ∀ l : List (String × JVal),
      (l.map (fun p => (p.1, get_health_score p.2))).isEmpty = l.isEmpty := by
    intro l
    cases l <;> rfl
  have hoverall : ∀ (setup : MonitorSetup) (comps : List String),
      overall_score setup comps = overallSpec setup comps := by
    intro setup comps
    simp only [overall_score, overallSpec]
    rw [hemp, hnum, hlen]
  have hstatus : ∀ q : Rat, statusOf q = statusSpec q := fun _ => rfl
  refine ⟨hscore, hoverall, hstatus, ?_, ?_⟩
  · intro setup comps p hp
    rw [checkedComponents, List.mem_filterMap] at hp
    obtain ⟨name, _, hf⟩ := hp
    by_cases hin : name ∈ comps
    · rw [if_pos hin] at hf
      cases hmon : monitorOf setup name with
      | none => rw [hmon] at hf; simp at hf
      | some r =>
          rw [hmon] at hf
          have hp2 : p = (name, r) := by
            have := Option.some.inj (by simpa [Option.map_some'] using hf)
            exact this.symm
          subst hp2
          exact ⟨hmon, hin⟩
    · rw [if_neg hin] at hf
      simp at hf
  · intro cfg wb sb s setup comps now
    have : (system_health_summary cfg wb sb s setup comps now).1.status
        = statusOf (overall_score setup comps) := rfl
    rw [this, hstatus, hoverall]

/-- Monitor result carrying an explicit error, for the C4 witness. -/
def rErr : JVal := .obj [("error", .str "boom")]

/-- Monitor availability with only the database monitor enabled,
returning the error result. -/
def setupC4 : MonitorSetup :=
  { database := some rErr, api := none, queue := none, storage := none,
    activity := none }

/-- Witness for C4: a concrete error result scores 50, the overall score
of the one-component check matches the spec mean, the bands agree at 50,
and the included component was requested with a result present. -/
theorem c4_health_scoring_witness :
    get_health_score rErr = 50
      ∧ overall_score setupC4 ["database"] = overallSpec setupC4 ["database"]
      ∧ statusOf (50 : Rat) = statusSpec 50
      ∧ (monitorOf setupC4 "database" = some rErr ∧ "database" ∈ ["database"]) := by
  have h := c4_health_scoring
  refine ⟨?_, h.2.1 setupC4 ["database"], h.2.2.1 50, ?_⟩
  · rw [h.1 rErr]
    rfl
  · exact h.2.2.2.1 setupC4 ["database"] ("database", rErr)
      (by rw [show checkedComponents setupC4 ["database"]
              = [("database", rErr)] from rfl]
          exact List.mem_singleton_self _)

theorem newAlert_message (s : AlertManagerState) (args : CreateArgs) (now : Rat) :
    (newAlert s args now).message = args.message := rfl

theorem process_messages_database (cfg : AlertsConfig)
    (wb : SlackMessage → Except String Nat) (sb : EmailMessage → Except String Unit)
    (s : AlertManagerState) (xs : List JVal) (now : Rat) :
    ((process_monitor_results cfg wb sb s [("database", mkIssuesResult xs)] now).alerts).map
        Alert.message
      = xs.map (fun issue => (db_issue_args issue).message) := by
  rw [process_single_database,
    foldl_processStep_map cfg wb sb now db_issue_args Alert.message
      CreateArgs.message (fun s' args => newAlert_message s' args now) xs
      { state := s, alerts := [], events := [] }]
  rfl

theorem process_messages_api (cfg : AlertsConfig)
    (wb : SlackMessage → Except String Nat) (sb : EmailMessage → Except String Unit)
    (s : AlertManagerState) (xs : List JVal) (now : Rat) :
    ((process_monitor_results cfg wb sb s [("api", mkIssuesResult xs)] now).alerts).map
        Alert.message
      = xs.map (fun issue => (api_issue_args issue).message) := by
  rw [process_single_api,
    foldl_processStep_map cfg wb sb now api_issue_args Alert.message
      CreateArgs.message (fun s' args => newAlert_message s' args now) xs
      { state := s, alerts := [], events := [] }]
  rfl

theorem process_messages_queue (cfg : AlertsConfig)
    (wb : SlackMessage → Except String Nat) (sb : EmailMessage → Except String Unit)
    (s : AlertManagerState) (xs : List JVal) (now : Rat) :
    ((process_monitor_results cfg wb sb s [("queue", mkIssuesResult xs)] now).alerts).map
        Alert.message
      = xs.map (fun issue => (queue_issue_args issue).message) := by
  rw [process_single_queue,
    foldl_processStep_map cfg wb sb now queue_issue_args Alert.message
      CreateArgs.message (fun s' args => newAlert_message s' args now) xs
      { state := s, alerts := [], events := [] }]
  rfl

theorem process_messages_storage (cfg : AlertsConfig)
    (wb : SlackMessage → Except String Nat) (sb : EmailMessage → Except String Unit)
    (s : AlertManagerState) (xs : List JVal) (now : Rat) :
    ((process_monitor_results cfg wb sb s [("storage", mkIssuesResult xs)] now).alerts).map
        Alert.message
      = xs.map (fun issue => (storage_issue_args issue).message) := by
  rw [process_single_storage,
    foldl_processStep_map cfg wb sb now storage_issue_args Alert.message
      CreateArgs.message (fun s' args => newAlert_message s' args now) xs
      { state := s, alerts := [], events := [] }]
  rfl

theorem process_messages_activity (cfg : AlertsConfig)
    (wb : SlackMessage → Except String Nat) (sb : EmailMessage → Except String Unit)
    (s : AlertManagerState) (xs : List JVal) (now : Rat) :
    ((process_monitor_results cfg wb sb s [("activity", mkIssuesResult xs)] now).alerts).map
        Alert.message
      = xs.map (fun issue => (activity_issue_args issue).message) := by
  rw [process_single_activity,
    foldl_processStep_map cfg wb sb now activity_issue_args Alert.message
      CreateArgs.message (fun s' args => newAlert_message s' args now) xs
      { state := s, alerts := [], events := [] }]
  rfl

/-- Counterexample to C8 as stated: a plain-string issue fed to the api
branch does not become the alert message; the branch falls back to its
fixed default instead. -/
theorem c8_counterexample :
    ((process_monitor_results cfgOff wbOk sbOk initState
          [("api", mkIssuesResult [JVal.str "slow"])] 0).alerts).map Alert.message
        = ["API performance issue detected"]
      ∧ "API performance issue detected" ≠ "slow" := by
  exact ⟨rfl, by decide⟩

/-- C8 amended.  A plain-string issue is used directly as the alert
message only in the database branch; in the api, queue, storage and
activity branches the per-component default message is used instead,
because field extraction treats a non-dict issue as having no fields. -/
theorem c8_string_issue_message_amended (cfg : AlertsConfig)
    (wb : SlackMessage → Except String Nat) (sb : EmailMessage → Except String Unit)
    (s : AlertManagerState) (now : Rat) (xs : List JVal) (i : Nat) (t : String)
    (hxi : xs[i]? = some (JVal.str t)) :
    (((process_monitor_results cfg wb sb s [("database", mkIssuesResult xs)] now).alerts).map
          Alert.message)[i]? = some t
      ∧ (((process_monitor_results cfg wb sb s [("api", mkIssuesResult xs)] now).alerts).map
          Alert.message)[i]? = some "API performance issue detected"
      ∧ (((process_monitor_results cfg wb sb s [("queue", mkIssuesResult xs)] now).alerts).map
          Alert.message)[i]? = some "Queue processing issue detected"
      ∧ (((process_monitor_results cfg wb sb s [("storage", mkIssuesResult xs)] now).alerts).map
          Alert.message)[i]? = some "Storage issue detected"
      ∧ (((process_monitor_results cfg wb sb s [("activity", mkIssuesResult xs)] now).alerts).map
          Alert.message)[i]? = some "Activity pattern issue detected" := by
  refine ⟨?_, ?_, ?_, ?_, ?_⟩
  · rw [process_messages_database, List.getElem?_map, hxi]
    rfl
  · rw [process_messages_api, List.getElem?_map, hxi]
    rfl
  · rw [process_messages_queue, List.getElem?_map, hxi]
    rfl
  · rw [process_messages_storage, List.getElem?_map, hxi]
    rfl
  · rw [process_messages_activity, List.getElem?_map, hxi]
    rfl

/-- Witness for the amended C8 at the string issue "hello" in position
zero. -/
theorem c8_string_issue_message_amended_witness :
    ([JVal.str "hello"] : List JVal)[0]? = some (JVal.str "hello")
      ∧ (((process_monitor_results cfgOff wbOk sbOk initState
            [("database", mkIssuesResult [JVal.str "hello"])] 0).alerts).map
          Alert.message)[0]? = some "hello"
      ∧ (((process_monitor_results cfgOff wbOk sbOk initState
            [("queue", mkIssuesResult [JVal.str "hello"])] 0).alerts).map
          Alert.message)[0]? = some "Queue processing issue detected" := by
  have h := c8_string_issue_message_amended cfgOff wbOk sbOk initState 0
    [JVal.str "hello"] 0 "hello" rfl
  exact ⟨rfl, h.1, h.2.2.1⟩

/-- Counterexample to C9 as stated: the alert created by the api branch
for the string issue "slow" carries metadata that wraps only the raw
issue; no entry names the originating monitor ("api"), neither as a
"monitor" key nor as a value. -/
theorem c9_counterexample :
    ((process_monitor_results cfgOff wbOk sbOk initState
          [("api", mkIssuesResult [JVal.str "slow"])] 0).alerts).map Alert.metadata
        = [[("issue", JVal.str "slow")]]
      ∧ ("issue" : String) ≠ "monitor"
      ∧ JVal.str "slow" ≠ JVal.str "api" := by
  exact ⟨rfl, by decide,
    fun h => (by decide : ("slow" : String) ≠ "api") (JVal.str.inj h)⟩

/-- C9 amended.  Only the database branch of process_monitor_results
records both the originating monitor name and the raw issue payload in
the alert metadata; the api, queue, storage and activity branches store
the structured issue's own fields as the metadata (or a dict wrapping
the raw issue when it is not structured), without the monitor name. -/
theorem c9_traceability_metadata_amended (cfg : AlertsConfig)
    (wb : SlackMessage → Except String Nat) (sb : EmailMessage → Except String Unit)
    (s : AlertManagerState) (now : Rat) (xs : List JVal) :
    ((process_monitor_results cfg wb sb s [("database", mkIssuesResult xs)] now).alerts).map
          Alert.metadata
        = xs.map (fun issue => [("monitor", JVal.str "database"), ("issue", issue)])
      ∧ ((process_monitor_results cfg wb sb s [("api", mkIssuesResult xs)] now).alerts).map
          Alert.metadata
        = xs.map (fun issue =>
            match issue with
            | JVal.obj fs => fs
            | _ => [("issue", issue)])
      ∧ ((process_monitor_results cfg wb sb s [("queue", mkIssuesResult xs)] now).alerts).map
          Alert.metadata
        = xs.map (fun issue =>
            match issue with
            | JVal.obj fs => fs
            | _ => [("issue", issue)])
      ∧ ((process_monitor_results cfg wb sb s [("storage", mkIssuesResult xs)] now).alerts).map
          Alert.metadata
        = xs.map (fun issue =>
            match issue with
            | JVal.obj fs => fs
            | _ => [("issue", issue)])
      ∧ ((process_monitor_results cfg wb sb s [("activity", mkIssuesResult xs)] now).alerts).map
          Alert.metadata
        = xs.map (fun issue =>
            match issue with
            | JVal.obj fs => fs
            | _ => [("issue", issue)]) := by
  refine ⟨?_, ?_, ?_, ?_, ?_⟩
  · rw [process_single_database,
      foldl_processStep_map cfg wb sb now db_issue_args Alert.metadata
        CreateArgs.metadata (fun _ _ => rfl) xs
        { state := s, alerts := [], events := [] }]
    rfl
  · rw [process_single_api,
      foldl_processStep_map cfg wb sb now api_issue_args Alert.metadata
        CreateArgs.metadata (fun _ _ => rfl) xs
        { state := s, alerts := [], events := [] }]
    exact List.map_congr_left (fun issue _ => by cases issue <;> rfl)
  · rw [process_single_queue,
      foldl_processStep_map cfg wb sb now queue_issue_args Alert.metadata
        CreateArgs.metadata (fun _ _ => rfl) xs
        { state := s, alerts := [], events := [] }]
    exact List.map_congr_left (fun issue _ => by cases issue <;> rfl)
  · rw [process_single_storage,
      foldl_processStep_map cfg wb sb now storage_issue_args Alert.metadata
        CreateArgs.metadata (fun _ _ => rfl) xs
        { state := s, alerts := [], events := [] }]
    exact List.map_congr_left (fun issue _ => by cases issue <;> rfl)
  · rw [process_single_activity,
      foldl_processStep_map cfg wb sb now activity_issue_args Alert.metadata
        CreateArgs.metadata (fun _ _ => rfl) xs
        { state := s, alerts := [], events := [] }]
    exact List.map_congr_left (fun issue _ => by cases issue <;> rfl)

/-- The state produced by resolve_alert on an active id: the shared
object is marked resolved and the id leaves the active dict. -/
def resolvedState (s : AlertManagerState) (idv : Nat) (now : Rat) :
    AlertManagerState :=
  { s with heap := heapUpdate s.heap idv
             (fun a => { a with is_resolved := true, resolved_at := some now }),
           active_alerts := s.active_alerts.erase idv }

theorem resolve_alert_of_mem (s : AlertManagerState) (idv : Nat) (now : Rat)
    (hmem : idv ∈ s.active_alerts) :
    resolve_alert s idv now = resolvedState s idv now := by
  unfold resolve_alert resolvedState
  rw [if_pos hmem]

theorem resolve_history_view (s : AlertManagerState) (idv : Nat) (now : Rat)
    (a₀ : Alert) (ha₀ : alook s.heap idv = some a₀)
    (hmem : idv ∈ s.active_alerts) (hmemh : idv ∈ s.alert_history) :
    { a₀ with is_resolved := true, resolved_at := some now }
      ∈ get_alert_history (resolve_alert s idv now)
          ((resolve_alert s idv now).alert_history.length) := by
  rw [resolve_alert_of_mem s idv now hmem]
  have hmemfm : ({ a₀ with is_resolved := true, resolved_at := some now } : Alert)
      ∈ historyAlerts (resolvedState s idv now) := by
    rw [historyAlerts]
    refine List.mem_filterMap.mpr ⟨idv, hmemh, ?_⟩
    show alook (heapUpdate s.heap idv
        (fun a => { a with is_resolved := true, resolved_at := some now })) idv
      = _
    rw [alook_heapUpdate, if_pos rfl, ha₀]
    rfl
  rw [get_alert_history]
  rw [List.take_of_length_le (by
    rw [List.length_reverse]
    exact List.length_filterMap_le _ _)]
  exact List.mem_reverse.mpr hmemfm

/-- C6.  Resolve semantics: resolving an active id marks the shared
alert object resolved with the resolution time stamped, removes the id
from the active set so it no longer appears among the active alerts,
while it stays retrievable through the history view; resolving an
absent id leaves the state untouched and signals no error. -/
theorem c6_resolve_semantics (s : AlertManagerState) (idv : Nat) (now : Rat)
    (hwf : WFState s) :
    (idv ∈ s.active_alerts →
        (∀ a₀, alook s.heap idv = some a₀ →
            alook (resolve_alert s idv now).heap idv
              = some { a₀ with is_resolved := true, resolved_at := some now })
          ∧ idv ∉ (resolve_alert s idv now).active_alerts
          ∧ (∀ a ∈ get_active_alerts (resolve_alert s idv now), a.id ≠ idv)
          ∧ (idv ∈ s.alert_history →
              ∃ a ∈ get_alert_history (resolve_alert s idv now)
                  ((resolve_alert s idv now).alert_history.length), a.id = idv))
      ∧ (idv ∉ s.active_alerts → resolve_alert s idv now = s) := by
  obtain ⟨hact, hhistwf, hkeys, hnodupA, hnodupK⟩ := hwf
  constructor
  · intro hmem
    refine ⟨?_, ?_, ?_, ?_⟩
    · intro a₀ ha₀
      rw [resolve_alert_of_mem s idv now hmem]
      show alook (heapUpdate s.heap idv
          (fun a => { a with is_resolved := true, resolved_at := some now })) idv
        = _
      rw [alook_heapUpdate, if_pos rfl, ha₀]
      rfl
    · rw [resolve_alert_of_mem s idv now hmem]
      intro hmem2
      have hme : idv ∈ s.active_alerts.erase idv := hmem2
      exact ((List.Nodup.mem_erase_iff hnodupA).mp hme).1 rfl
    · intro a ha
      rw [resolve_alert_of_mem s idv now hmem, get_active_alerts] at ha
      obtain ⟨i, hi, halook⟩ := List.mem_filterMap.mp ha
      have hie : i ∈ s.active_alerts.erase idv := hi
      have hine : i ≠ idv := ((List.Nodup.mem_erase_iff hnodupA).mp hie).1
      have halook2 : alook s.heap i = some a := by
        have hstep : alook (heapUpdate s.heap idv
            (fun a => { a with is_resolved := true, resolved_at := some now })) i
          = some a := halook
        rwa [alook_heapUpdate, if_neg hine] at hstep
      have := (hkeys _ (alook_mem halook2)).1
      rw [this]
      exact hine
    · intro hmemh
      have hsome := hact idv hmem
      obtain ⟨a₀, ha₀⟩ := Option.isSome_iff_exists.mp hsome
      refine ⟨{ a₀ with is_resolved := true, resolved_at := some now },
        resolve_history_view s idv now a₀ ha₀ hmem hmemh, ?_⟩
      show a₀.id = idv
      exact (hkeys _ (alook_mem ha₀)).1
  · intro hnm
    unfold resolve_alert
    rw [if_neg hnm]

/-- Witness for C6: resolving the only alert of a one-alert state
removes it from the active view but keeps it in the history view, and
resolving an absent id is a no-op. -/
theorem c6_resolve_semantics_witness :
    WFState (create_alert cfgOff wbOk sbOk initState argsDB 0).state
      ∧ (0 ∈ (create_alert cfgOff wbOk sbOk initState argsDB 0).state.active_alerts
          ∧ 0 ∉ (resolve_alert (create_alert cfgOff wbOk sbOk initState argsDB 0).state
              0 5).active_alerts)
      ∧ (7 ∉ (create_alert cfgOff wbOk sbOk initState argsDB 0).state.active_alerts
          ∧ resolve_alert (create_alert cfgOff wbOk sbOk initState argsDB 0).state 7 5
            = (create_alert cfgOff wbOk sbOk initState argsDB 0).state) := by
  have hwf : WFState (create_alert cfgOff wbOk sbOk initState argsDB 0).state := by
    refine ⟨?_, ?_, ?_, ?_, ?_⟩ <;> decide
  have h := c6_resolve_semantics (create_alert cfgOff wbOk sbOk initState argsDB 0).state
    0 5 hwf
  have h7 := c6_resolve_semantics (create_alert cfgOff wbOk sbOk initState argsDB 0).state
    7 5 hwf
  refine ⟨hwf, ⟨by decide, (h.1 (by decide)).2.1⟩, ⟨by decide, h7.2 (by decide)⟩⟩

/-- Counterexample to C3 as stated: create one alert at time 0 and
resolve it at time 5; the history view then shows the alert as resolved
with the resolution timestamp, not as an unchanged creation-time
snapshot, because the history deque aliases the same Alert object that
resolve_alert mutates. -/
theorem c3_counterexample :
    (get_alert_history
        (resolve_alert (create_alert cfgOff wbOk sbOk initState argsDB 0).state 0 5)
        100).map (fun a => (a.id, a.is_resolved, a.resolved_at))
      = [(0, true, some (5 : Rat))] := rfl

/-- C3 amended.  The history entry of a resolved alert reflects the
resolution: after resolve, the history view yields the alert with
is_resolved set and resolved_at stamped with the resolution time, since
the history buffer stores a reference to the same alert object rather
than a snapshot. -/
theorem c3_history_reflects_resolution_amended (s : AlertManagerState)
    (idv : Nat) (now : Rat) (a₀ : Alert) (hwf : WFState s)
    (ha₀ : alook s.heap idv = some a₀) (hmem : idv ∈ s.active_alerts)
    (hmemh : idv ∈ s.alert_history) :
    ∃ a ∈ get_alert_history (resolve_alert s idv now)
        ((resolve_alert s idv now).alert_history.length),
      a.id = idv ∧ a.is_resolved = true ∧ a.resolved_at = some now := by
  refine ⟨{ a₀ with is_resolved := true, resolved_at := some now },
    resolve_history_view s idv now a₀ ha₀ hmem hmemh, ?_, rfl, rfl⟩
  show a₀.id = idv
  exact (hwf.2.2.1 _ (alook_mem ha₀)).1

/-- Witness for the amended C3 on the one-alert state created at time 0
and resolved at time 5. -/
theorem c3_history_reflects_resolution_amended_witness :
    alook (create_alert cfgOff wbOk sbOk initState argsDB 0).state.heap 0
        = some (newAlert initState argsDB 0)
      ∧ 0 ∈ (create_alert cfgOff wbOk sbOk initState argsDB 0).state.active_alerts
      ∧ 0 ∈ (create_alert cfgOff wbOk sbOk initState argsDB 0).state.alert_history
      ∧ ∃ a ∈ get_alert_history
            (resolve_alert (create_alert cfgOff wbOk sbOk initState argsDB 0).state 0 5)
            ((resolve_alert (create_alert cfgOff wbOk sbOk initState
                argsDB 0).state 0 5).alert_history.length),
          a.id = 0 ∧ a.is_resolved = true ∧ a.resolved_at = some 5 := by
  have hwf : WFState (create_alert cfgOff wbOk sbOk initState argsDB 0).state := by
    refine ⟨?_, ?_, ?_, ?_, ?_⟩ <;> decide
  exact ⟨rfl, by decide, by decide,
    c3_history_reflects_resolution_amended
      (create_alert cfgOff wbOk sbOk initState argsDB 0).state 0 5
      (newAlert initState argsDB 0) hwf rfl (by decide) (by decide)⟩

/-- A sequence of create_alert calls (arguments and clock reading per
call) folded over a starting state. -/
def createSeq (cfg : AlertsConfig)
    (wb : SlackMessage → Except String Nat) (sb : EmailMessage → Except String Unit)
    (s : AlertManagerState) (calls : List (CreateArgs × Rat)) : AlertManagerState :=
  calls.foldl (fun st c => (create_alert cfg wb sb st c.1 c.2).state) s

/-- C5.  Bounded FIFO history: after any sequence of creations from a
fresh manager the history holds at most 1000 entries; a creation on a
full buffer evicts exactly the oldest entry; and the history read
returns the buffer most-recent-first, truncated to the limit. -/
theorem c5_bounded_fifo_history :
    (∀ (cfg : AlertsConfig) (wb : SlackMessage → Except String Nat)
        (sb : EmailMessage → Except String Unit) (calls : List (CreateArgs × Rat)),
        (createSeq cfg wb sb initState calls).alert_history.length ≤ 1000)
      ∧ (∀ (cfg : AlertsConfig) (wb : SlackMessage → Except String Nat)
          (sb : EmailMessage → Except String Unit) (s : AlertManagerState)
          (args : CreateArgs) (now : Rat), s.alert_history.length = 1000 →
          (create_alert cfg wb sb s args now).state.alert_history
            = s.alert_history.tail ++ [s.next_id])
      ∧ (∀ (s : AlertManagerState) (limit : Nat),
          (get_alert_history s limit).length ≤ limit
            ∧ ∀ i, i < (get_alert_history s limit).length →
                (get_alert_history s limit)[i]?
                  = (historyAlerts s)[(historyAlerts s).length - 1 - i]?) := by
  refine ⟨?_, ?_, ?_⟩
  · intro cfg wb sb calls
    have haux : ∀ (cs : List (CreateArgs × Rat)) (s : AlertManagerState),
        s.alert_history.length ≤ 1000 →
        (createSeq cfg wb sb s cs).alert_history.length ≤ 1000 := by
      intro cs
      induction cs with
      | nil => intro s h; exact h
      | cons c rest ih =>
          intro s h
          show (createSeq cfg wb sb (create_alert cfg wb sb s c.1 c.2).state
              rest).alert_history.length ≤ 1000
          refine ih _ ?_
          show (dequeAppend 1000 s.alert_history s.next_id).length ≤ 1000
          exact dequeAppend_length_le _ _
    exact haux calls initState (by simp [initState])
  · intro cfg wb sb s args now h
    show dequeAppend 1000 s.alert_history s.next_id
      = s.alert_history.tail ++ [s.next_id]
    exact dequeAppend_full _ _ h
  · intro s limit
    constructor
    · rw [get_alert_history, List.length_take]
      exact min_le_left _ _
    · intro i hi
      rw [get_alert_history, List.length_take] at hi
      obtain ⟨hi1, hi2⟩ := lt_min_iff.mp hi
      rw [get_alert_history, List.getElem?_take, if_pos hi1,
        List.getElem?_reverse (by rwa [List.length_reverse] at hi2)]

/-- Manager state with a full history deque of 1000 entries. -/
def fullState : AlertManagerState :=
  { heap := [], active_alerts := [], alert_history := List.range 1000,
    cooldown_tracker := [], next_id := 1000 }

/-- Witness for C5: the empty creation sequence respects the bound, a
creation on the full 1000-entry state evicts the oldest id, and the
history read of a one-alert state is bounded by its limit with the
most-recent-first indexing holding at position zero. -/
theorem c5_bounded_fifo_history_witness :
    (createSeq cfgOff wbOk sbOk initState []).alert_history.length ≤ 1000
      ∧ fullState.alert_history.length = 1000
      ∧ (create_alert cfgOff wbOk sbOk fullState argsDB 0).state.alert_history
          = fullState.alert_history.tail ++ [fullState.next_id]
      ∧ (get_alert_history (create_alert cfgOff wbOk sbOk initState argsDB 0).state
          100).length ≤ 100
      ∧ 0 < (get_alert_history (create_alert cfgOff wbOk sbOk initState argsDB 0).state
          100).length
      ∧ (get_alert_history (create_alert cfgOff wbOk sbOk initState argsDB 0).state
            100)[0]?
          = (historyAlerts (create_alert cfgOff wbOk sbOk initState argsDB 0).state)[
              (historyAlerts (create_alert cfgOff wbOk sbOk initState
                argsDB 0).state).length - 1 - 0]? := by
  have h := c5_bounded_fifo_history
  have hlen : fullState.alert_history.length = 1000 := by simp [fullState]
  exact ⟨h.1 cfgOff wbOk sbOk [], hlen,
    h.2.1 cfgOff wbOk sbOk fullState argsDB 0 hlen,
    (h.2.2 (create_alert cfgOff wbOk sbOk initState argsDB 0).state 100).1,
    by decide,
    (h.2.2 (create_alert cfgOff wbOk sbOk initState argsDB 0).state 100).2 0
      (by decide)⟩

/-- Sample create_alert arguments for an api alert. -/
def argsAPI : CreateArgs :=
  { severity := "warning", component := "api", title := "API slow",
    message := "round trip latency above threshold" }

/-- Manager state holding two unresolved alerts: a database alert
created at time 0 and an api alert created at time 1. -/
def c10State : AlertManagerState :=
  (create_alert cfgOff wbOk sbOk
    (create_alert cfgOff wbOk sbOk initState argsDB 0).state argsAPI 1).state

/-- C10.  Evaluation of the code at the failing input: with two
unresolved alerts created at times 0 and 1, the most_recent_alert field
of the summary yields the first-inserted alert (id 0, created at time
0), while the most recently created unresolved alert is the one with id
1, created at time 1 — the field reports the oldest active alert, not
the most recent. -/
theorem c10_most_recent_field_eval :
    (get_alert_summary c10State 2).most_recent_alert.map
        (fun a => (a.id, a.created_at)) = some (0, 0)
      ∧ 1 ∈ c10State.active_alerts
      ∧ (alook c10State.heap 1).map (fun a => (a.created_at, a.is_resolved))
          = some (1, false)
      ∧ (get_alert_summary initState 0).most_recent_alert = none := by
  exact ⟨rfl, by decide, rfl, rfl⟩

end RSHealth
